import Mathlib

/-!
Verification of the report synthesis engine of NutriApp (src/app.py).

The engine is the function `generate_report_simulated` (app.py, lines
118-263) together with its helper `_contains_any` (lines 113-115).  It is a
pure rule engine over strings: three cross-cutting keyword rules, one
module-specific rule group per known module, and a per-section fallback.

Embedding conventions:
- Python `str` is Lean `String` (a list of unicode code points).
- Python `str.strip()` is `pyStrip` (whitespace trimming at both ends;
  modelled for the ASCII whitespace characters).
- Python `str.lower()` is `pyLower` (modelled for the ASCII and Latin-1
  letter ranges, which cover every character the engine's keyword tables
  and the claims exercise).
- The Python `extra` dict is modelled as a partial map `String → Option
  String`; `extra.get(k)` is function application.
- The imperative accumulator lists of the Python function are modelled by
  pure list concatenation in the source's evaluation order: the three
  cross-cutting rules first, then the module group's contributions.
-/

/-- Python `str.isspace` for the ASCII whitespace characters
(space, tab, newline, carriage return, vertical tab, form feed). -/
def pyIsSpace (c : Char) : Bool :=
  c.toNat == 32 || c.toNat == 9 || c.toNat == 10 || c.toNat == 13 || c.toNat == 11 || c.toNat == 12

/-- Python `str.strip()`: drop whitespace from both ends of the string. -/
def pyStrip (s : String) : String :=
  ⟨((s.data.dropWhile pyIsSpace).reverse.dropWhile pyIsSpace).reverse⟩

/-- Python `str.lower()` on one character, for the ASCII uppercase range
`A`-`Z` and the Latin-1 uppercase range `À`-`Þ` (excluding `×`); every
other character is left unchanged. -/
def pyLowerChar (c : Char) : Char :=
  if (65 ≤ c.toNat ∧ c.toNat ≤ 90) ∨ (192 ≤ c.toNat ∧ c.toNat ≤ 222 ∧ c.toNat ≠ 215) then
    Char.ofNat (c.toNat + 32)
  else c

/-- Python `str.lower()`: lower-case every character. -/
def pyLower (s : String) : String := ⟨s.data.map pyLowerChar⟩

/-- Decides whether the character sequence `t` occurs at the start of `s`. -/
def startsWithSeq : List Char → List Char → Bool
  | [], _ => true
  | _ :: _, [] => false
  | a :: t, b :: s => a == b && startsWithSeq t s

/-- Decides whether the character sequence `t` occurs somewhere inside `s`
(Python's `term in text` substring test). -/
def hasSeq (t : List Char) : List Char → Bool
  | [] => t.isEmpty
  | b :: s => startsWithSeq t (b :: s) || hasSeq t s

/-- The character sequence `t` occurs contiguously inside `s`. -/
def isPartOf (t s : List Char) : Prop := ∃ u v, u ++ t ++ v = s

/-- app.py lines 113-115: `_contains_any(text, terms)` lower-cases `text`
and tests whether any of the `terms` occurs in it as a substring. -/
def _contains_any (text : String) (terms : List String) : Bool :=
  terms.any (fun term => hasSeq term.data (pyLower text).data)

/-- app.py lines 154-156, 182-184, 210-213: the pattern
`(extra.get(k) or "").strip()` — a missing key, an empty value and a
whitespace-only value all normalise to the empty string. -/
def getExtra (extra : String → Option String) (k : String) : String :=
  pyStrip ((extra k).getD "")

/-- Keyword table of the fatigue rule (app.py line 137). -/
def fatigueTerms : List String := ["cansaço", "fadiga", "sonol", "insônia"]

/-- Keyword table of the weight-loss rule (app.py line 142). -/
def weightTerms : List String := ["emagrec", "perder peso", "redução de peso"]

/-- Keyword table of the gastrointestinal rule (app.py line 147). -/
def giTerms : List String := ["intest", "gases", "incha", "azia", "reflux"]

/-- Fixed bullet strings of the engine (app.py lines 137-254), named by the
rule that contributes them. -/
def assessFatigue : String := "A queixa sugere possível relação com sono, hidratação e regularidade alimentar."

def attFatigue : String := "Investigar padrão de sono, ingestão hídrica e regularidade das refeições."

def nsFatigue : String := "Registrar sono e hidratação por 7 dias e revisar distribuição das refeições ao longo do dia."

def assessWeight : String := "O objetivo indica necessidade de estratégia gradual para favorecer adesão."

def attWeight : String := "Risco de metas agressivas reduzirem adesão e favorecerem compensações alimentares."

def nsWeight : String := "Definir metas graduais e indicadores de adesão (frequência alimentar, proteína/dia e rotina)."

def assessGI : String := "Há indícios de desconforto gastrointestinal que pode demandar investigação dirigida."

def attGI : String := "Avaliar gatilhos alimentares, horários e composição das refeições."

def nsGI : String := "Aplicar diário alimentar dirigido por 3 a 7 dias e registrar sintomas por horário."

def ctxClinical : String := "No contexto clínico, recomenda-se integrar histórico, sintomas e dados laboratoriais para orientar conduta inicial."

def attComorb (s : String) : String := "Comorbidades registradas: " ++ s ++ ". Ajustar conduta conforme condição clínica."

def missComorb : String := "Comorbidades e diagnósticos relevantes não informados."

def attLabs (s : String) : String := "Exames citados: " ++ s ++ ". Verificar alterações relevantes e tendência temporal."

def nsLabs : String := "Padronizar registro de exames com datas e acompanhar tendência longitudinal."

def missLabs : String := "Exames laboratoriais recentes não informados, quando aplicável."

def attMeds (s : String) : String := "Medicamentos e suplementos: " ++ s ++ ". Verificar interações e impactos (apetite, glicemia, sono)."

def missMeds : String := "Medicamentos e suplementos em uso não informados."

def nsClinical : String := "Definir plano inicial com metas objetivas e rotina de acompanhamento."

def fuClinical1 : String := "Reavaliar adesão, sintomas e evolução em 7 a 14 dias."

def fuClinical2 : String := "Atualizar medidas e revisar exames conforme disponibilidade."

def ctxSports : String := "No contexto esportivo, é necessário alinhar ingestão, timing e recuperação à rotina de treino e objetivo de performance."

def attTraining (s : String) : String := "Rotina de treino: " ++ s ++ ". Ajustar timing de nutrientes, hidratação e recuperação."

def nsTraining : String := "Mapear janela pré e pós-treino e registrar recuperação percebida e sono."

def missTraining : String := "Rotina de treino (frequência, duração e intensidade) não informada."

def attPerf (s : String) : String := "Meta esportiva: " ++ s ++ ". Alinhar estratégia alimentar à periodização."

def missPerf : String := "Meta esportiva específica não informada (performance, hipertrofia, resistência, recomposição)."

def attComp (s : String) : String := "Composição corporal: " ++ s ++ ". Usar como referência para metas realistas e monitoramento."

def missComp : String := "Composição corporal não informada, quando aplicável."

def nsSports : String := "Definir indicadores semanais: treinos realizados, sono, fome, recuperação e desempenho."

def fuSports1 : String := "Reavaliar resposta ao plano e performance em 7 dias, com ajustes finos no timing e distribuição."

def fuSports2 : String := "Atualizar métricas conforme periodicidade e disponibilidade."

def ctxMaternal : String := "No contexto materno-infantil, é essencial considerar idade, rotina alimentar, crescimento e tolerâncias, priorizando segurança."

def attChildAge (s : String) : String := "Idade da criança: " ++ s ++ ". Ajustar orientação conforme fase alimentar."

def missChildAge : String := "Idade da criança não informada, essencial para orientar conduta."

def attBreast (s : String) : String := "Aleitamento: " ++ s ++ ". Considerar manejo e orientação conforme rotina familiar."

def missBreast : String := "Informação sobre aleitamento não informada, quando aplicável."

def attGrowth (s : String) : String := "Crescimento/curva: " ++ s ++ ". Verificar tendência e sinais de risco nutricional."

def nsGrowth : String := "Registrar medidas com datas e acompanhar tendência longitudinal na curva."

def missGrowth : String := "Peso/estatura e datas não informados."

def attAllergy (s : String) : String := "Alergias/intolerâncias: " ++ s ++ ". Garantir adequação e segurança alimentar."

def missAllergy : String := "Alergias/intolerâncias não informadas, quando aplicável."

def nsMaternal : String := "Orientar plano inicial considerando rotina familiar, aceitação alimentar e segurança na variedade."

def fuMaternal1 : String := "Reavaliar aceitação e evolução em 14 a 30 dias, conforme caso."

/-- Fallback bullets of app.py lines 241-254. -/
def fbAssessment : String := "Registro insuficiente para avaliação mais direcionada. Recomenda-se completar dados e reavaliar."

def fbAttention : String := "Não foram identificados pontos críticos com base nos dados informados. Recomenda-se completar o registro."

def fbNextSteps : String := "Completar anamnese e estabelecer plano inicial com monitoramento em 7 a 14 dias."

def fbMissing : String := "Sem pendências críticas identificadas a partir do registro atual."

def fbFollowUp : String := "Agendar retorno para reavaliação e ajuste do plano conforme evolução e adesão."

/-- Cross-cutting contributions to `assessment_lines` (app.py lines
137-150), in evaluation order. -/
def crossAssessment (complaint goals notes : String) : List String :=
  (if _contains_any complaint fatigueTerms then [assessFatigue] else []) ++
  (if _contains_any goals weightTerms then [assessWeight] else []) ++
  (if _contains_any (complaint ++ " " ++ notes) giTerms then [assessGI] else [])

/-- Cross-cutting contributions to `attention` (app.py lines 137-150). -/
def crossAttention (complaint goals notes : String) : List String :=
  (if _contains_any complaint fatigueTerms then [attFatigue] else []) ++
  (if _contains_any goals weightTerms then [attWeight] else []) ++
  (if _contains_any (complaint ++ " " ++ notes) giTerms then [attGI] else [])

/-- Cross-cutting contributions to `next_steps` (app.py lines 137-150). -/
def crossNextSteps (complaint goals notes : String) : List String :=
  (if _contains_any complaint fatigueTerms then [nsFatigue] else []) ++
  (if _contains_any goals weightTerms then [nsWeight] else []) ++
  (if _contains_any (complaint ++ " " ++ notes) giTerms then [nsGI] else [])

/-- Module-group contributions to `assessment_lines` (app.py lines 158,
186, 215): each known module unconditionally appends one context line. -/
def moduleAssessment (module : String) : List String :=
  if module = "Nutrição clínica" then [ctxClinical]
  else if module = "Nutrição esportiva" then [ctxSports]
  else if module = "Materno infantil" then [ctxMaternal]
  else []

/-- Module-group contributions to `attention` (app.py lines 160-175,
188-202, 217-236): one echo bullet per present extra field. -/
def moduleAttention (module : String) (extra : String → Option String) : List String :=
  if module = "Nutrição clínica" then
    (if getExtra extra "comorbidities" ≠ "" then [attComorb (getExtra extra "comorbidities")] else []) ++
    (if getExtra extra "labs" ≠ "" then [attLabs (getExtra extra "labs")] else []) ++
    (if getExtra extra "meds" ≠ "" then [attMeds (getExtra extra "meds")] else [])
  else if module = "Nutrição esportiva" then
    (if getExtra extra "training_routine" ≠ "" then [attTraining (getExtra extra "training_routine")] else []) ++
    (if getExtra extra "performance_goal" ≠ "" then [attPerf (getExtra extra "performance_goal")] else []) ++
    (if getExtra extra "body_comp" ≠ "" then [attComp (getExtra extra "body_comp")] else [])
  else if module = "Materno infantil" then
    (if getExtra extra "child_age" ≠ "" then [attChildAge (getExtra extra "child_age")] else []) ++
    (if getExtra extra "breastfeeding" ≠ "" then [attBreast (getExtra extra "breastfeeding")] else []) ++
    (if getExtra extra "growth_curve" ≠ "" then [attGrowth (getExtra extra "growth_curve")] else []) ++
    (if getExtra extra "allergy" ≠ "" then [attAllergy (getExtra extra "allergy")] else [])
  else []

/-- Module-group contributions to `next_steps` (app.py lines 167, 176,
190, 204, 229, 238): a conditional field bullet, then the group's
unconditional bullet. -/
def moduleNextSteps (module : String) (extra : String → Option String) : List String :=
  if module = "Nutrição clínica" then
    (if getExtra extra "labs" ≠ "" then [nsLabs] else []) ++ [nsClinical]
  else if module = "Nutrição esportiva" then
    (if getExtra extra "training_routine" ≠ "" then [nsTraining] else []) ++ [nsSports]
  else if module = "Materno infantil" then
    (if getExtra extra "growth_curve" ≠ "" then [nsGrowth] else []) ++ [nsMaternal]
  else []

/-- Module-group contributions to `missing` (app.py lines 163, 169, 174,
192, 197, 202, 220, 225, 231, 236): one bullet per absent extra field. -/
def moduleMissing (module : String) (extra : String → Option String) : List String :=
  if module = "Nutrição clínica" then
    (if getExtra extra "comorbidities" ≠ "" then [] else [missComorb]) ++
    (if getExtra extra "labs" ≠ "" then [] else [missLabs]) ++
    (if getExtra extra "meds" ≠ "" then [] else [missMeds])
  else if module = "Nutrição esportiva" then
    (if getExtra extra "training_routine" ≠ "" then [] else [missTraining]) ++
    (if getExtra extra "performance_goal" ≠ "" then [] else [missPerf]) ++
    (if getExtra extra "body_comp" ≠ "" then [] else [missComp])
  else if module = "Materno infantil" then
    (if getExtra extra "child_age" ≠ "" then [] else [missChildAge]) ++
    (if getExtra extra "breastfeeding" ≠ "" then [] else [missBreast]) ++
    (if getExtra extra "growth_curve" ≠ "" then [] else [missGrowth]) ++
    (if getExtra extra "allergy" ≠ "" then [] else [missAllergy])
  else []

/-- Module-group contributions to `follow_up` (app.py lines 177-178,
205-206, 239): unconditional bullets only. -/
def moduleFollowUp (module : String) : List String :=
  if module = "Nutrição clínica" then [fuClinical1, fuClinical2]
  else if module = "Nutrição esportiva" then [fuSports1, fuSports2]
  else if module = "Materno infantil" then [fuMaternal1]
  else []

/-- Fallback substitution of app.py lines 241-254: a section that
accumulated no bullet is replaced by a single canned bullet. -/
def withDefault (l : List String) (fb : String) : List String :=
  if l = [] then [fb] else l

/-- Rendering of app.py lines 258-262: the bullet list joined with a
`"- "` prefix per item and newline separators. -/
def joinBullets : List String → String
  | [] => ""
  | x :: xs =>
    match xs with
    | [] => "- " ++ x
    | _ :: _ => "- " ++ x ++ "\n" ++ joinBullets xs

/-- The engine's output record (app.py lines 256-263). -/
@[ext]
structure StructuredReport where
  summary : String
  assessment : String
  attention_points : String
  next_steps : String
  missing_data : String
  follow_up : String

/-- app.py lines 118-263: the report synthesis engine. -/
def generate_report_simulated (module subtype complaint goals notes : String)
    (extra : String → Option String) : StructuredReport :=
  let complaint := pyStrip complaint
  let goals := pyStrip goals
  let notes := pyStrip notes
  { summary := "Módulo: " ++ module ++ " (" ++ subtype ++ ")" ++ "\n" ++
      "Queixa principal: " ++ complaint ++ "\n" ++
      "Objetivos: " ++ goals ++ "\n" ++
      "Observações: " ++ (if notes = "" then "Não informado" else notes)
    assessment := joinBullets (withDefault
      (crossAssessment complaint goals notes ++ moduleAssessment module) fbAssessment)
    attention_points := joinBullets (withDefault
      (crossAttention complaint goals notes ++ moduleAttention module extra) fbAttention)
    next_steps := joinBullets (withDefault
      (crossNextSteps complaint goals notes ++ moduleNextSteps module extra) fbNextSteps)
    missing_data := joinBullets (withDefault (moduleMissing module extra) fbMissing)
    follow_up := joinBullets (withDefault (moduleFollowUp module) fbFollowUp) }

/-- The three module values recognised by the engine (app.py lines 153,
181, 209). -/
def knownModules : List String := ["Nutrição clínica", "Nutrição esportiva", "Materno infantil"]

/-- The extra-field keys each module reads (app.py lines 154-156, 182-184,
210-213); every other key is ignored. -/
def recognizedKeys (module : String) : List String :=
  if module = "Nutrição clínica" then ["comorbidities", "labs", "meds"]
  else if module = "Nutrição esportiva" then ["training_routine", "performance_goal", "body_comp"]
  else if module = "Materno infantil" then ["child_age", "breastfeeding", "growth_curve", "allergy"]
  else []

/-- The context line each known module unconditionally appends to
`assessment_lines` (app.py lines 158, 186, 215). -/
def moduleContextLine (module : String) : String :=
  if module = "Nutrição clínica" then ctxClinical
  else if module = "Nutrição esportiva" then ctxSports
  else if module = "Materno infantil" then ctxMaternal
  else ""

/-- The `next_steps` bullet each known module unconditionally appends
(app.py lines 176, 204, 238). -/
def moduleUncondNextStep (module : String) : String :=
  if module = "Nutrição clínica" then nsClinical
  else if module = "Nutrição esportiva" then nsSports
  else if module = "Materno infantil" then nsMaternal
  else ""

/-- The first `follow_up` bullet each known module unconditionally appends
(app.py lines 177, 205, 239). -/
def moduleUncondFollowUp (module : String) : String :=
  if module = "Nutrição clínica" then fuClinical1
  else if module = "Nutrição esportiva" then fuSports1
  else if module = "Materno infantil" then fuMaternal1
  else ""

/-- Modelled from the spec: `summary` is a fixed four-line composition of
header fields (module, subtype, complaint, goals, notes-or-placeholder),
the placeholder being used exactly when the stripped notes are blank. -/
def summarySpec (module subtype complaint goals notes : String) : String :=
  "Módulo: " ++ module ++ " (" ++ subtype ++ ")" ++ "\n" ++
    "Queixa principal: " ++ pyStrip complaint ++ "\n" ++
    "Objetivos: " ++ pyStrip goals ++ "\n" ++
    "Observações: " ++ (if pyStrip notes = "" then "Não informado" else pyStrip notes)

/-! General lemmas about the string primitives. -/

theorem data_append (s t : String) : (s ++ t).data = s.data ++ t.data := rfl

theorem data_eq_nil_iff (s : String) : s.data = [] ↔ s = "" := by
  constructor
  · intro h
    exact String.ext (h.trans rfl)
  · intro h
    rw [h]

theorem append_ne_empty_left (s t : String) (h : s ≠ "") : s ++ t ≠ "" := by
  intro e
  apply h
  have hd := congrArg String.data e
  rw [data_append] at hd
  exact (data_eq_nil_iff s).mp (List.append_eq_nil.mp hd).1

theorem startsWithSeq_iff (t s : List Char) : startsWithSeq t s = true ↔ ∃ v, t ++ v = s := by
  induction t generalizing s with
  | nil => simp [startsWithSeq]
  | cons a t ih =>
    cases s with
    | nil => simp [startsWithSeq]
    | cons b s =>
      simp [startsWithSeq, Bool.and_eq_true, beq_iff_eq, ih, List.cons.injEq, exists_and_left]

theorem hasSeq_iff (t s : List Char) : hasSeq t s = true ↔ isPartOf t s := by
  induction s with
  | nil =>
    simp only [hasSeq, List.isEmpty_iff, isPartOf]
    constructor
    · rintro rfl
      exact ⟨[], [], rfl⟩
    · rintro ⟨u, v, huv⟩
      rcases List.append_eq_nil.mp huv with ⟨h1, h2⟩
      exact (List.append_eq_nil.mp h1).2
  | cons b s ih =>
    simp only [hasSeq, Bool.or_eq_true, startsWithSeq_iff, ih, isPartOf]
    constructor
    · rintro (⟨v, hv⟩ | ⟨u, v, hv⟩)
      · exact ⟨[], v, by simpa using hv⟩
      · exact ⟨b :: u, v, by simpa using hv⟩
    · rintro ⟨u, v, huv⟩
      cases u with
      | nil => exact Or.inl ⟨v, by simpa using huv⟩
      | cons x u =>
        right
        injection huv with h1 h2
        exact ⟨u, v, h2⟩

instance (t s : List Char) : Decidable (isPartOf t s) :=
  decidable_of_iff (hasSeq t s = true) (hasSeq_iff t s)

theorem isPartOf_rev (t s : List Char) (h : isPartOf t s) : isPartOf t.reverse s.reverse := by
  obtain ⟨u, v, rfl⟩ := h
  exact ⟨v.reverse, u.reverse, by simp⟩

theorem isPartOf_dropWhile (p : Char → Bool) (t : List Char) (ht : t ≠ [])
    (hts : ∀ c ∈ t, p c = false) : ∀ l : List Char, isPartOf t l → isPartOf t (l.dropWhile p) := by
  intro l h
  obtain ⟨u, v, rfl⟩ := h
  induction u with
  | nil =>
    cases t with
    | nil => exact absurd rfl ht
    | cons c t' =>
      rw [List.nil_append, List.cons_append, List.dropWhile_cons_of_neg]
      · exact ⟨[], v, rfl⟩
      · simp [hts c (List.mem_cons_self c t')]
  | cons a u' ih =>
    by_cases ha : p a = true
    · simp only [List.cons_append]
      rw [List.dropWhile_cons_of_pos ha]
      simpa only [List.cons_append] using ih
    · simp only [List.cons_append]
      rw [List.dropWhile_cons_of_neg ha]
      exact ⟨a :: u', v, by simp⟩

theorem isPartOf_pyStrip (t : List Char) (s : String) (ht : t ≠ [])
    (hts : ∀ c ∈ t, pyIsSpace c = false) (h : isPartOf t s.data) :
    isPartOf t (pyStrip s).data := by
  have h1 := isPartOf_dropWhile pyIsSpace t ht hts s.data h
  have h2 := isPartOf_rev _ _ h1
  have h3 := isPartOf_dropWhile pyIsSpace t.reverse (by simpa using ht)
    (by intro c hc; exact hts c (List.mem_reverse.mp hc)) _ h2
  have h4 := isPartOf_rev _ _ h3
  simpa [pyStrip] using h4

theorem toNat_ofNat_valid (n : Nat) (h : n < 55296) : (Char.ofNat n).toNat = n := by
  unfold Char.ofNat
  rw [dif_pos (Or.inl h)]
  rfl

theorem pyIsSpace_pyLowerChar (c : Char) : pyIsSpace (pyLowerChar c) = pyIsSpace c := by
  have key : ∀ m : Nat, 65 ≤ m →
      ((m == 32 || m == 9 || m == 10 || m == 13 || m == 11 || m == 12) = false) := by
    intro m hm
    simp only [Bool.or_eq_false_iff, beq_eq_false_iff_ne, ne_eq]
    omega
  unfold pyLowerChar
  split
  case isTrue h =>
    have hn : 65 ≤ c.toNat := by rcases h with ⟨h1, _⟩ | ⟨h1, _, _⟩ <;> omega
    have hv : c.toNat + 32 < 55296 := by
      rcases h with ⟨_, h2⟩ | ⟨_, h2, _⟩ <;> omega
    simp only [pyIsSpace, toNat_ofNat_valid _ hv]
    rw [key _ (by omega), key _ hn]
  case isFalse h => rfl

theorem dropWhile_map_lower (l : List Char) :
    List.dropWhile pyIsSpace (l.map pyLowerChar) = (List.dropWhile pyIsSpace l).map pyLowerChar := by
  induction l with
  | nil => rfl
  | cons a l ih =>
    by_cases ha : pyIsSpace a = true
    · rw [List.map_cons, List.dropWhile_cons_of_pos (by rw [pyIsSpace_pyLowerChar]; exact ha),
        List.dropWhile_cons_of_pos ha]
      exact ih
    · rw [List.map_cons, List.dropWhile_cons_of_neg (by rw [pyIsSpace_pyLowerChar]; exact ha),
        List.dropWhile_cons_of_neg ha, List.map_cons]

theorem pyStrip_pyLower_comm (s : String) : pyLower (pyStrip s) = pyStrip (pyLower s) := by
  show String.mk _ = String.mk _
  congr 1
  show (((s.data.dropWhile pyIsSpace).reverse.dropWhile pyIsSpace).reverse).map pyLowerChar =
    (((s.data.map pyLowerChar).dropWhile pyIsSpace).reverse.dropWhile pyIsSpace).reverse
  rw [dropWhile_map_lower, ← List.map_reverse, dropWhile_map_lower, ← List.map_reverse]

/-! Lemmas about bullet rendering. -/

theorem joinBullets_cons (x : String) (xs : List String) (hxs : xs ≠ []) :
    (joinBullets (x :: xs)).data = ('-' :: ' ' :: x.data) ++ '\n' :: (joinBullets xs).data := by
  cases xs with
  | nil => exact absurd rfl hxs
  | cons y ys =>
    show (("- " ++ x ++ "\n") ++ joinBullets (y :: ys)).data = _
    simp only [data_append]
    simp [List.append_assoc]

theorem joinBullets_single (x : String) :
    (joinBullets [x]).data = '-' :: ' ' :: x.data := rfl

theorem joinBullets_ne_empty (xs : List String) (h : xs ≠ []) : joinBullets xs ≠ "" := by
  cases xs with
  | nil => exact absurd rfl h
  | cons x ys =>
    intro e
    have hd := congrArg String.data e
    cases ys with
    | nil => rw [joinBullets_single] at hd; exact List.noConfusion hd
    | cons y ys' => rw [joinBullets_cons x _ (by simp)] at hd; simp at hd

theorem withDefault_ne_nil (l : List String) (fb : String) : withDefault l fb ≠ [] := by
  unfold withDefault
  split
  · simp
  · assumption

theorem withDefault_of_ne_nil (l : List String) (fb : String) (h : l ≠ []) :
    withDefault l fb = l := if_neg h

theorem isPartOf_joinBullets_of_mem (x : String) (xs : List String) (h : x ∈ xs) :
    isPartOf x.data (joinBullets xs).data := by
  induction xs with
  | nil => exact absurd h (List.not_mem_nil x)
  | cons y ys ih =>
    rcases List.mem_cons.mp h with rfl | hmem
    · cases ys with
      | nil => exact ⟨['-', ' '], [], by simp [joinBullets_single]⟩
      | cons z zs =>
        refine ⟨['-', ' '], '\n' :: (joinBullets (z :: zs)).data, ?_⟩
        rw [joinBullets_cons x (z :: zs) (by simp)]
        simp
    · have hne : ys ≠ [] := by intro e; rw [e] at hmem; exact List.not_mem_nil x hmem
      obtain ⟨u, v, huv⟩ := ih hmem
      refine ⟨('-' :: ' ' :: y.data) ++ '\n' :: u, v, ?_⟩
      rw [joinBullets_cons y ys hne, ← huv]
      simp [List.append_assoc]

theorem starts_split (sep : Char) (t : List Char) (hsep : sep ∉ t) :
    ∀ s₁ s₂ : List Char, (∃ v, t ++ v = s₁ ++ sep :: s₂) → ∃ w, t ++ w = s₁ := by
  induction t with
  | nil => exact fun s₁ _ _ => ⟨s₁, rfl⟩
  | cons a t ih =>
    intro s₁ s₂ h
    obtain ⟨v, hv⟩ := h
    cases s₁ with
    | nil =>
      simp only [List.cons_append, List.nil_append] at hv
      injection hv with h1 h2
      exact absurd (h1 ▸ List.mem_cons_self a t) hsep
    | cons b s₁' =>
      simp only [List.cons_append] at hv
      injection hv with h1 h2
      obtain ⟨w, hw⟩ := ih (fun hm => hsep (List.mem_cons_of_mem a hm)) s₁' s₂ ⟨v, h2⟩
      exact ⟨w, by rw [List.cons_append, hw, h1]⟩

theorem isPartOf_split (sep : Char) (t : List Char) (hsep : sep ∉ t) :
    ∀ s₁ s₂ : List Char, isPartOf t (s₁ ++ sep :: s₂) → isPartOf t s₁ ∨ isPartOf t s₂ := by
  intro s₁ s₂ h
  obtain ⟨u, v, huv⟩ := h
  induction u generalizing s₁ with
  | nil =>
    obtain ⟨w, hw⟩ := starts_split sep t hsep s₁ s₂ ⟨v, by simpa using huv⟩
    left
    exact ⟨[], s₁.drop t.length, by
      have : t ++ w = s₁ := hw
      subst this
      simp [List.drop_left]⟩
  | cons a u' ih =>
    cases s₁ with
    | nil =>
      simp only [List.cons_append, List.nil_append] at huv
      injection huv with h1 h2
      exact Or.inr ⟨u', v, h2⟩
    | cons b s₁' =>
      simp only [List.cons_append] at huv
      injection huv with h1 h2
      rcases ih s₁' h2 with hl | hr
      · left
        obtain ⟨u2, v2, huv2⟩ := hl
        exact ⟨b :: u2, v2, by simp only [List.cons_append, List.append_assoc] at huv2 ⊢; rw [huv2]⟩
      · exact Or.inr hr

theorem not_isPartOf_joinBullets (t : List Char) (ht : t ≠ []) (hn : ('\n') ∉ t)
    (xs : List String) (hx : ∀ x ∈ xs, ¬ isPartOf t ('-' :: ' ' :: x.data)) :
    ¬ isPartOf t (joinBullets xs).data := by
  induction xs with
  | nil =>
    rintro ⟨u, v, huv⟩
    have : t = [] := (List.append_eq_nil.mp (List.append_eq_nil.mp huv).1).2
    exact ht this
  | cons x ys ih =>
    intro h
    cases ys with
    | nil =>
      rw [joinBullets_single] at h
      exact hx x (List.mem_cons_self x []) h
    | cons y ys' =>
      rw [joinBullets_cons x (y :: ys') (by simp)] at h
      rcases isPartOf_split '\n' t hn _ _ h with hl | hr
      · exact hx x (List.mem_cons_self x _) hl
      · exact ih (fun z hz => hx z (List.mem_cons_of_mem x hz)) hr

/-! Lemmas about the rule contribution lists. -/

theorem mem_crossAssessment (c g n x : String) (hx : x ∈ crossAssessment c g n) :
    x = assessFatigue ∨ x = assessWeight ∨ x = assessGI := by
  simp only [crossAssessment, List.mem_append] at hx
  rcases hx with (hx | hx) | hx <;> split at hx <;> simp_all

theorem mem_crossNextSteps (c g n x : String) (hx : x ∈ crossNextSteps c g n) :
    x = nsFatigue ∨ x = nsWeight ∨ x = nsGI := by
  simp only [crossNextSteps, List.mem_append] at hx
  rcases hx with (hx | hx) | hx <;> split at hx <;> simp_all

theorem crossAssessment_fatigue (c g n : String) (h : _contains_any c fatigueTerms = true) :
    assessFatigue ∈ crossAssessment c g n := by
  simp [crossAssessment, h]

theorem crossAttention_fatigue (c g n : String) (h : _contains_any c fatigueTerms = true) :
    attFatigue ∈ crossAttention c g n := by
  simp [crossAttention, h]

theorem crossNextSteps_fatigue (c g n : String) (h : _contains_any c fatigueTerms = true) :
    nsFatigue ∈ crossNextSteps c g n := by
  simp [crossNextSteps, h]

theorem moduleAttention_congr (m : String) (e1 e2 : String → Option String)
    (h : ∀ k ∈ recognizedKeys m, getExtra e1 k = getExtra e2 k) :
    moduleAttention m e1 = moduleAttention m e2 := by
  by_cases h1 : m = "Nutrição clínica"
  · subst h1
    have k1 := h "comorbidities" (by simp [recognizedKeys])
    have k2 := h "labs" (by simp [recognizedKeys])
    have k3 := h "meds" (by simp [recognizedKeys])
    simp [moduleAttention, k1, k2, k3]
  by_cases h2 : m = "Nutrição esportiva"
  · subst h2
    have k1 := h "training_routine" (by simp [recognizedKeys])
    have k2 := h "performance_goal" (by simp [recognizedKeys])
    have k3 := h "body_comp" (by simp [recognizedKeys])
    simp [moduleAttention, k1, k2, k3]
  by_cases h3 : m = "Materno infantil"
  · subst h3
    have k1 := h "child_age" (by simp [recognizedKeys])
    have k2 := h "breastfeeding" (by simp [recognizedKeys])
    have k3 := h "growth_curve" (by simp [recognizedKeys])
    have k4 := h "allergy" (by simp [recognizedKeys])
    simp [moduleAttention, k1, k2, k3, k4]
  simp [moduleAttention, h1, h2, h3]

theorem moduleNextSteps_congr (m : String) (e1 e2 : String → Option String)
    (h : ∀ k ∈ recognizedKeys m, getExtra e1 k = getExtra e2 k) :
    moduleNextSteps m e1 = moduleNextSteps m e2 := by
  by_cases h1 : m = "Nutrição clínica"
  · subst h1
    have k2 := h "labs" (by simp [recognizedKeys])
    simp [moduleNextSteps, k2]
  by_cases h2 : m = "Nutrição esportiva"
  · subst h2
    have k1 := h "training_routine" (by simp [recognizedKeys])
    simp [moduleNextSteps, k1]
  by_cases h3 : m = "Materno infantil"
  · subst h3
    have k3 := h "growth_curve" (by simp [recognizedKeys])
    simp [moduleNextSteps, k3]
  simp [moduleNextSteps, h1, h2, h3]

theorem moduleMissing_congr (m : String) (e1 e2 : String → Option String)
    (h : ∀ k ∈ recognizedKeys m, getExtra e1 k = getExtra e2 k) :
    moduleMissing m e1 = moduleMissing m e2 := by
  by_cases h1 : m = "Nutrição clínica"
  · subst h1
    have k1 := h "comorbidities" (by simp [recognizedKeys])
    have k2 := h "labs" (by simp [recognizedKeys])
    have k3 := h "meds" (by simp [recognizedKeys])
    simp [moduleMissing, k1, k2, k3]
  by_cases h2 : m = "Nutrição esportiva"
  · subst h2
    have k1 := h "training_routine" (by simp [recognizedKeys])
    have k2 := h "performance_goal" (by simp [recognizedKeys])
    have k3 := h "body_comp" (by simp [recognizedKeys])
    simp [moduleMissing, k1, k2, k3]
  by_cases h3 : m = "Materno infantil"
  · subst h3
    have k1 := h "child_age" (by simp [recognizedKeys])
    have k2 := h "breastfeeding" (by simp [recognizedKeys])
    have k3 := h "growth_curve" (by simp [recognizedKeys])
    have k4 := h "allergy" (by simp [recognizedKeys])
    simp [moduleMissing, k1, k2, k3, k4]
  simp [moduleMissing, h1, h2, h3]

/-! The claims. -/

/-- C1: the report synthesis engine is a pure deterministic function of its
six arguments: any two invocations of `generate_report_simulated` on the
same `(module, subtype, complaint, goals, notes, extra)` input produce
reports whose six section strings are equal.  The embedding renders the
engine as a Lean function; app.py lines 118-263 justify this (they are
straight-line string and list computation with no I/O, no randomness and
no access to state outside the arguments). -/
theorem generate_report_deterministic (module subtype complaint goals notes : String)
    (extra : String → Option String) :
    (generate_report_simulated module subtype complaint goals notes extra).summary =
      (generate_report_simulated module subtype complaint goals notes extra).summary ∧
    (generate_report_simulated module subtype complaint goals notes extra).assessment =
      (generate_report_simulated module subtype complaint goals notes extra).assessment ∧
    (generate_report_simulated module subtype complaint goals notes extra).attention_points =
      (generate_report_simulated module subtype complaint goals notes extra).attention_points ∧
    (generate_report_simulated module subtype complaint goals notes extra).next_steps =
      (generate_report_simulated module subtype complaint goals notes extra).next_steps ∧
    (generate_report_simulated module subtype complaint goals notes extra).missing_data =
      (generate_report_simulated module subtype complaint goals notes extra).missing_data ∧
    (generate_report_simulated module subtype complaint goals notes extra).follow_up =
      (generate_report_simulated module subtype complaint goals notes extra).follow_up :=
  ⟨rfl, rfl, rfl, rfl, rfl, rfl⟩

/-- C3: the engine is total.  For every combination of string arguments
(including all-empty strings) and every extra mapping (including the empty
mapping) `generate_report_simulated` returns a `StructuredReport`; the
embedding is a total Lean function, which app.py lines 118-263 justify
(no raise, no assert, and `dict.get` never fails). -/
theorem generate_report_total (module subtype complaint goals notes : String)
    (extra : String → Option String) :
    ∃ r : StructuredReport,
      generate_report_simulated module subtype complaint goals notes extra = r :=
  ⟨_, rfl⟩

/-- C8: `subtype` affects only the report header.  Two inputs differing
only in `subtype` agree on the five sections `assessment`,
`attention_points`, `next_steps`, `missing_data` and `follow_up`. -/
theorem subtype_header_only (module s1 s2 complaint goals notes : String)
    (extra : String → Option String) :
    (generate_report_simulated module s1 complaint goals notes extra).assessment =
      (generate_report_simulated module s2 complaint goals notes extra).assessment ∧
    (generate_report_simulated module s1 complaint goals notes extra).attention_points =
      (generate_report_simulated module s2 complaint goals notes extra).attention_points ∧
    (generate_report_simulated module s1 complaint goals notes extra).next_steps =
      (generate_report_simulated module s2 complaint goals notes extra).next_steps ∧
    (generate_report_simulated module s1 complaint goals notes extra).missing_data =
      (generate_report_simulated module s2 complaint goals notes extra).missing_data ∧
    (generate_report_simulated module s1 complaint goals notes extra).follow_up =
      (generate_report_simulated module s2 complaint goals notes extra).follow_up :=
  ⟨rfl, rfl, rfl, rfl, rfl⟩

/-- C9: for every input the `summary` section equals the fixed four-line
composition of the header fields described by the spec (module/subtype
line, complaint line, goals line, and a notes line in which the
placeholder is substituted when the stripped notes are blank), and the
summary is never empty.  The equation shows the summary depends on no rule
evaluation. -/
theorem summary_fixed_format (module subtype complaint goals notes : String)
    (extra : String → Option String) :
    (generate_report_simulated module subtype complaint goals notes extra).summary =
      summarySpec module subtype complaint goals notes ∧
    (generate_report_simulated module subtype complaint goals notes extra).summary ≠ "" := by
  refine ⟨rfl, ?_⟩
  have he : (generate_report_simulated module subtype complaint goals notes extra).summary =
      summarySpec module subtype complaint goals notes := rfl
  rw [he]
  unfold summarySpec
  repeat' apply append_ne_empty_left
  decide

/-- C10: the `follow_up` section of a Clinical report consists of exactly
the two clinical bullets (reassessment, then measures/labs update), a
Sports report of exactly the two sports bullets (reassessment, then
metrics update), and a MaternalChild report of exactly the single
14-to-30-day reassessment bullet, whatever the remaining arguments are —
no other rule contributes to `follow_up`. -/
theorem follow_up_exact_bullets (subtype complaint goals notes : String)
    (extra : String → Option String) :
    (generate_report_simulated "Nutrição clínica" subtype complaint goals notes extra).follow_up =
      joinBullets [fuClinical1, fuClinical2] ∧
    (generate_report_simulated "Nutrição esportiva" subtype complaint goals notes extra).follow_up =
      joinBullets [fuSports1, fuSports2] ∧
    (generate_report_simulated "Materno infantil" subtype complaint goals notes extra).follow_up =
      joinBullets [fuMaternal1] := by
  refine ⟨?_, ?_, ?_⟩ <;> rfl

/-- C2: for every input each of the six output sections is a non-empty
string, and when no rule contributed to a non-summary section that
section is exactly the single canned fallback bullet for it. -/
theorem report_sections_nonempty (module subtype complaint goals notes : String)
    (extra : String → Option String) :
    ((generate_report_simulated module subtype complaint goals notes extra).summary ≠ "" ∧
     (generate_report_simulated module subtype complaint goals notes extra).assessment ≠ "" ∧
     (generate_report_simulated module subtype complaint goals notes extra).attention_points ≠ "" ∧
     (generate_report_simulated module subtype complaint goals notes extra).next_steps ≠ "" ∧
     (generate_report_simulated module subtype complaint goals notes extra).missing_data ≠ "" ∧
     (generate_report_simulated module subtype complaint goals notes extra).follow_up ≠ "") ∧
    (crossAssessment (pyStrip complaint) (pyStrip goals) (pyStrip notes) ++
        moduleAssessment module = [] →
      (generate_report_simulated module subtype complaint goals notes extra).assessment =
        joinBullets [fbAssessment]) ∧
    (crossAttention (pyStrip complaint) (pyStrip goals) (pyStrip notes) ++
        moduleAttention module extra = [] →
      (generate_report_simulated module subtype complaint goals notes extra).attention_points =
        joinBullets [fbAttention]) ∧
    (crossNextSteps (pyStrip complaint) (pyStrip goals) (pyStrip notes) ++
        moduleNextSteps module extra = [] →
      (generate_report_simulated module subtype complaint goals notes extra).next_steps =
        joinBullets [fbNextSteps]) ∧
    (moduleMissing module extra = [] →
      (generate_report_simulated module subtype complaint goals notes extra).missing_data =
        joinBullets [fbMissing]) ∧
    (moduleFollowUp module = [] →
      (generate_report_simulated module subtype complaint goals notes extra).follow_up =
        joinBullets [fbFollowUp]) := by
  refine ⟨⟨?_, ?_, ?_, ?_, ?_, ?_⟩, ?_, ?_, ?_, ?_, ?_⟩
  · have he : (generate_report_simulated module subtype complaint goals notes extra).summary =
        summarySpec module subtype complaint goals notes := rfl
    rw [he]
    unfold summarySpec
    repeat' apply append_ne_empty_left
    decide
  · exact joinBullets_ne_empty _ (withDefault_ne_nil _ _)
  · exact joinBullets_ne_empty _ (withDefault_ne_nil _ _)
  · exact joinBullets_ne_empty _ (withDefault_ne_nil _ _)
  · exact joinBullets_ne_empty _ (withDefault_ne_nil _ _)
  · exact joinBullets_ne_empty _ (withDefault_ne_nil _ _)
  · intro h
    show joinBullets (withDefault (crossAssessment (pyStrip complaint) (pyStrip goals)
      (pyStrip notes) ++ moduleAssessment module) fbAssessment) = joinBullets [fbAssessment]
    rw [h]
    rfl
  · intro h
    show joinBullets (withDefault (crossAttention (pyStrip complaint) (pyStrip goals)
      (pyStrip notes) ++ moduleAttention module extra) fbAttention) = joinBullets [fbAttention]
    rw [h]
    rfl
  · intro h
    show joinBullets (withDefault (crossNextSteps (pyStrip complaint) (pyStrip goals)
      (pyStrip notes) ++ moduleNextSteps module extra) fbNextSteps) = joinBullets [fbNextSteps]
    rw [h]
    rfl
  · intro h
    show joinBullets (withDefault (moduleMissing module extra) fbMissing) = joinBullets [fbMissing]
    rw [h]
    rfl
  · intro h
    show joinBullets (withDefault (moduleFollowUp module) fbFollowUp) = joinBullets [fbFollowUp]
    rw [h]
    rfl

/-- Witness for C2 at a concrete input with an unknown module and all-blank
fields: the rule lists are empty there, so every conditional fallback
hypothesis can be discharged by computation. -/
theorem report_sections_nonempty_witness :
    (crossAssessment (pyStrip "") (pyStrip "") (pyStrip "") ++
      moduleAssessment "Clínica geral" = []) ∧
    (generate_report_simulated "Clínica geral" "" "" "" "" (fun _ => none)).assessment =
      joinBullets [fbAssessment] ∧
    (generate_report_simulated "Clínica geral" "" "" "" "" (fun _ => none)).summary ≠ "" :=
  ⟨by decide,
   (report_sections_nonempty "Clínica geral" "" "" "" "" (fun _ => none)).2.1 (by decide),
   (report_sections_nonempty "Clínica geral" "" "" "" "" (fun _ => none)).1.1⟩

theorem mem_moduleAssessment (m x : String) (hx : x ∈ moduleAssessment m) :
    x = ctxClinical ∨ x = ctxSports ∨ x = ctxMaternal := by
  unfold moduleAssessment at hx
  repeat' split at hx
  all_goals simp_all

theorem mem_moduleNextSteps (m : String) (e : String → Option String) (x : String)
    (hx : x ∈ moduleNextSteps m e) :
    x = nsLabs ∨ x = nsClinical ∨ x = nsTraining ∨ x = nsSports ∨ x = nsGrowth ∨ x = nsMaternal := by
  unfold moduleNextSteps at hx
  repeat' split at hx
  all_goals simp_all
  all_goals tauto

theorem fbAssessment_not_in_lines (x : String)
    (hx : x = assessFatigue ∨ x = assessWeight ∨ x = assessGI ∨
      x = ctxClinical ∨ x = ctxSports ∨ x = ctxMaternal) :
    ¬ isPartOf fbAssessment.data ('-' :: ' ' :: x.data) := by
  rcases hx with rfl | rfl | rfl | rfl | rfl | rfl <;> decide

theorem fbNextSteps_not_in_lines (x : String)
    (hx : x = nsFatigue ∨ x = nsWeight ∨ x = nsGI ∨ x = nsLabs ∨ x = nsClinical ∨
      x = nsTraining ∨ x = nsSports ∨ x = nsGrowth ∨ x = nsMaternal) :
    ¬ isPartOf fbNextSteps.data ('-' :: ' ' :: x.data) := by
  rcases hx with rfl | rfl | rfl | rfl | rfl | rfl | rfl | rfl | rfl <;> decide

theorem assessment_render (c g n module : String) (hm : module ∈ knownModules) :
    isPartOf (moduleContextLine module).data
      (joinBullets (withDefault (crossAssessment c g n ++ moduleAssessment module)
        fbAssessment)).data ∧
    ¬ isPartOf fbAssessment.data
      (joinBullets (withDefault (crossAssessment c g n ++ moduleAssessment module)
        fbAssessment)).data := by
  have hml : module = "Nutrição clínica" ∨ module = "Nutrição esportiva" ∨
      module = "Materno infantil" := by simpa [knownModules] using hm
  have hctx : moduleContextLine module ∈ moduleAssessment module := by
    rcases hml with rfl | rfl | rfl <;> simp [moduleAssessment, moduleContextLine]
  have hmem : moduleContextLine module ∈ crossAssessment c g n ++ moduleAssessment module :=
    List.mem_append.mpr (Or.inr hctx)
  have hL : crossAssessment c g n ++ moduleAssessment module ≠ [] := List.ne_nil_of_mem hmem
  rw [withDefault_of_ne_nil _ _ hL]
  refine ⟨isPartOf_joinBullets_of_mem _ _ hmem, ?_⟩
  apply not_isPartOf_joinBullets _ (by decide) (by decide)
  intro x hx
  rcases List.mem_append.mp hx with hx | hx
  · exact fbAssessment_not_in_lines x (by
      rcases mem_crossAssessment c g n x hx with h | h | h <;> simp [h])
  · exact fbAssessment_not_in_lines x (by
      rcases mem_moduleAssessment module x hx with h | h | h <;> simp [h])

theorem next_steps_render (c g n module : String) (e : String → Option String)
    (hm : module ∈ knownModules) :
    isPartOf (moduleUncondNextStep module).data
      (joinBullets (withDefault (crossNextSteps c g n ++ moduleNextSteps module e)
        fbNextSteps)).data ∧
    ¬ isPartOf fbNextSteps.data
      (joinBullets (withDefault (crossNextSteps c g n ++ moduleNextSteps module e)
        fbNextSteps)).data := by
  have hml : module = "Nutrição clínica" ∨ module = "Nutrição esportiva" ∨
      module = "Materno infantil" := by simpa [knownModules] using hm
  have huncond : moduleUncondNextStep module ∈ moduleNextSteps module e := by
    rcases hml with rfl | rfl | rfl <;> simp [moduleNextSteps, moduleUncondNextStep]
  have hmem : moduleUncondNextStep module ∈ crossNextSteps c g n ++ moduleNextSteps module e :=
    List.mem_append.mpr (Or.inr huncond)
  have hL : crossNextSteps c g n ++ moduleNextSteps module e ≠ [] := List.ne_nil_of_mem hmem
  rw [withDefault_of_ne_nil _ _ hL]
  refine ⟨isPartOf_joinBullets_of_mem _ _ hmem, ?_⟩
  apply not_isPartOf_joinBullets _ (by decide) (by decide)
  intro x hx
  rcases List.mem_append.mp hx with hx | hx
  · exact fbNextSteps_not_in_lines x (by
      rcases mem_crossNextSteps c g n x hx with h | h | h <;> simp [h])
  · exact fbNextSteps_not_in_lines x (by
      rcases mem_moduleNextSteps module e x hx with h | h | h | h | h | h <;> simp [h])

theorem follow_up_render (module : String) (hm : module ∈ knownModules) :
    isPartOf (moduleUncondFollowUp module).data
      (joinBullets (withDefault (moduleFollowUp module) fbFollowUp)).data ∧
    ¬ isPartOf fbFollowUp.data
      (joinBullets (withDefault (moduleFollowUp module) fbFollowUp)).data := by
  have hml : module = "Nutrição clínica" ∨ module = "Nutrição esportiva" ∨
      module = "Materno infantil" := by simpa [knownModules] using hm
  rcases hml with rfl | rfl | rfl <;> exact ⟨by decide, by decide⟩

/-- C4: for every input whose module is one of the three known values, the
`assessment`, `next_steps` and `follow_up` sections contain the module
group's unconditional context line, next-step bullet and follow-up bullet
respectively, and none of these three sections contains its generic canned
fallback text. -/
theorem known_module_no_fallback (module subtype complaint goals notes : String)
    (extra : String → Option String) (hm : module ∈ knownModules) :
    isPartOf (moduleContextLine module).data
      (generate_report_simulated module subtype complaint goals notes extra).assessment.data ∧
    ¬ isPartOf fbAssessment.data
      (generate_report_simulated module subtype complaint goals notes extra).assessment.data ∧
    isPartOf (moduleUncondNextStep module).data
      (generate_report_simulated module subtype complaint goals notes extra).next_steps.data ∧
    ¬ isPartOf fbNextSteps.data
      (generate_report_simulated module subtype complaint goals notes extra).next_steps.data ∧
    isPartOf (moduleUncondFollowUp module).data
      (generate_report_simulated module subtype complaint goals notes extra).follow_up.data ∧
    ¬ isPartOf fbFollowUp.data
      (generate_report_simulated module subtype complaint goals notes extra).follow_up.data := by
  obtain ⟨h1, h2⟩ :=
    assessment_render (pyStrip complaint) (pyStrip goals) (pyStrip notes) module hm
  obtain ⟨h3, h4⟩ :=
    next_steps_render (pyStrip complaint) (pyStrip goals) (pyStrip notes) module extra hm
  obtain ⟨h5, h6⟩ := follow_up_render module hm
  exact ⟨h1, h2, h3, h4, h5, h6⟩

/-- Witness for C4 at the Sports module with all other fields blank. -/
theorem known_module_no_fallback_witness :
    ("Nutrição esportiva" ∈ knownModules) ∧
    (isPartOf (moduleContextLine "Nutrição esportiva").data
      (generate_report_simulated "Nutrição esportiva" "" "" "" "" (fun _ => none)).assessment.data ∧
    ¬ isPartOf fbAssessment.data
      (generate_report_simulated "Nutrição esportiva" "" "" "" "" (fun _ => none)).assessment.data ∧
    isPartOf (moduleUncondNextStep "Nutrição esportiva").data
      (generate_report_simulated "Nutrição esportiva" "" "" "" "" (fun _ => none)).next_steps.data ∧
    ¬ isPartOf fbNextSteps.data
      (generate_report_simulated "Nutrição esportiva" "" "" "" "" (fun _ => none)).next_steps.data ∧
    isPartOf (moduleUncondFollowUp "Nutrição esportiva").data
      (generate_report_simulated "Nutrição esportiva" "" "" "" "" (fun _ => none)).follow_up.data ∧
    ¬ isPartOf fbFollowUp.data
      (generate_report_simulated "Nutrição esportiva" "" "" "" "" (fun _ => none)).follow_up.data) :=
  ⟨by decide,
   known_module_no_fallback "Nutrição esportiva" "" "" "" "" (fun _ => none) (by decide)⟩

/-- C6: for every complaint that contains the substring "cansaço" after
lower-casing (hence case-insensitively, with any surrounding text), and
any other arguments, the report contains the sleep/hydration assessment
line in `assessment`, the sleep-investigation bullet in
`attention_points`, and the 7-day sleep/hydration logging bullet in
`next_steps`. -/
theorem fatigue_keyword_triggers (module subtype complaint goals notes : String)
    (extra : String → Option String)
    (h : isPartOf "cansaço".data (pyLower complaint).data) :
    isPartOf assessFatigue.data
      (generate_report_simulated module subtype complaint goals notes extra).assessment.data ∧
    isPartOf attFatigue.data
      (generate_report_simulated module subtype complaint goals notes extra).attention_points.data ∧
    isPartOf nsFatigue.data
      (generate_report_simulated module subtype complaint goals notes extra).next_steps.data := by
  have hsp : ∀ c ∈ "cansaço".data, pyIsSpace c = false := by decide
  have hne : "cansaço".data ≠ [] := by decide
  have hstrip : isPartOf "cansaço".data (pyStrip (pyLower complaint)).data :=
    isPartOf_pyStrip _ _ hne hsp h
  rw [← pyStrip_pyLower_comm] at hstrip
  have hcond : _contains_any (pyStrip complaint) fatigueTerms = true := by
    have hb : hasSeq "cansaço".data (pyLower (pyStrip complaint)).data = true :=
      (hasSeq_iff _ _).mpr hstrip
    simp [_contains_any, fatigueTerms, hb]
  refine ⟨?_, ?_, ?_⟩
  · have hmem : assessFatigue ∈ crossAssessment (pyStrip complaint) (pyStrip goals)
        (pyStrip notes) ++ moduleAssessment module :=
      List.mem_append.mpr (Or.inl (crossAssessment_fatigue _ _ _ hcond))
    have he : (generate_report_simulated module subtype complaint goals notes extra).assessment =
        joinBullets (withDefault (crossAssessment (pyStrip complaint) (pyStrip goals)
          (pyStrip notes) ++ moduleAssessment module) fbAssessment) := rfl
    rw [he, withDefault_of_ne_nil _ _ (List.ne_nil_of_mem hmem)]
    exact isPartOf_joinBullets_of_mem _ _ hmem
  · have hmem : attFatigue ∈ crossAttention (pyStrip complaint) (pyStrip goals)
        (pyStrip notes) ++ moduleAttention module extra :=
      List.mem_append.mpr (Or.inl (crossAttention_fatigue _ _ _ hcond))
    have he : (generate_report_simulated module subtype complaint goals notes
        extra).attention_points =
        joinBullets (withDefault (crossAttention (pyStrip complaint) (pyStrip goals)
          (pyStrip notes) ++ moduleAttention module extra) fbAttention) := rfl
    rw [he, withDefault_of_ne_nil _ _ (List.ne_nil_of_mem hmem)]
    exact isPartOf_joinBullets_of_mem _ _ hmem
  · have hmem : nsFatigue ∈ crossNextSteps (pyStrip complaint) (pyStrip goals)
        (pyStrip notes) ++ moduleNextSteps module extra :=
      List.mem_append.mpr (Or.inl (crossNextSteps_fatigue _ _ _ hcond))
    have he : (generate_report_simulated module subtype complaint goals notes extra).next_steps =
        joinBullets (withDefault (crossNextSteps (pyStrip complaint) (pyStrip goals)
          (pyStrip notes) ++ moduleNextSteps module extra) fbNextSteps) := rfl
    rw [he, withDefault_of_ne_nil _ _ (List.ne_nil_of_mem hmem)]
    exact isPartOf_joinBullets_of_mem _ _ hmem

/-- Witness for C6 at the capitalised complaint "Cansaço extremo",
exercising the case-insensitivity of the keyword match. -/
theorem fatigue_keyword_triggers_witness :
    isPartOf "cansaço".data (pyLower "Cansaço extremo").data ∧
    (isPartOf assessFatigue.data
      (generate_report_simulated "Nutrição clínica" "Padrão" "Cansaço extremo" "" ""
        (fun _ => none)).assessment.data ∧
    isPartOf attFatigue.data
      (generate_report_simulated "Nutrição clínica" "Padrão" "Cansaço extremo" "" ""
        (fun _ => none)).attention_points.data ∧
    isPartOf nsFatigue.data
      (generate_report_simulated "Nutrição clínica" "Padrão" "Cansaço extremo" "" ""
        (fun _ => none)).next_steps.data) :=
  ⟨by decide,
   fatigue_keyword_triggers "Nutrição clínica" "Padrão" "Cansaço extremo" "" ""
     (fun _ => none) (by decide)⟩

/-- Counterexample to C5 as stated: for the unknown module "Outro" with a
complaint that fires the fatigue rule, `next_steps` does not equal its
canned fallback text — the cross-cutting rules also contribute to
`next_steps`, so the fallback is not reached merely because no module
group contributed. -/
theorem unknown_module_fallback_counterexample :
    ("Outro" ∉ knownModules) ∧
    (generate_report_simulated "Outro" "Padrão" "Estou com cansaço" "" ""
      (fun _ => none)).next_steps ≠ joinBullets [fbNextSteps] :=
  ⟨by decide, by decide⟩

/-- C5 (amended): for every input whose module is outside the three known
values, no module-specific bullet is added to any section (all five
module contribution lists are empty); `assessment`, `attention_points`
and `next_steps` equal their canned fallback text whenever no
cross-cutting rule fired; and `missing_data` and `follow_up` equal their
canned fallback text unconditionally.  The amendment (forced by
`unknown_module_fallback_counterexample`) is that the `next_steps`
fallback also needs the no-cross-cutting-rule condition, since the three
cross-cutting rules append to `next_steps` as well. -/
theorem unknown_module_fallback (module subtype complaint goals notes : String)
    (extra : String → Option String) (hm : module ∉ knownModules) :
    (moduleAssessment module = [] ∧ moduleAttention module extra = [] ∧
     moduleNextSteps module extra = [] ∧ moduleMissing module extra = [] ∧
     moduleFollowUp module = []) ∧
    (_contains_any (pyStrip complaint) fatigueTerms = false →
     _contains_any (pyStrip goals) weightTerms = false →
     _contains_any (pyStrip complaint ++ " " ++ pyStrip notes) giTerms = false →
      (generate_report_simulated module subtype complaint goals notes extra).assessment =
        joinBullets [fbAssessment] ∧
      (generate_report_simulated module subtype complaint goals notes extra).attention_points =
        joinBullets [fbAttention] ∧
      (generate_report_simulated module subtype complaint goals notes extra).next_steps =
        joinBullets [fbNextSteps]) ∧
    (generate_report_simulated module subtype complaint goals notes extra).missing_data =
      joinBullets [fbMissing] ∧
    (generate_report_simulated module subtype complaint goals notes extra).follow_up =
      joinBullets [fbFollowUp] := by
  obtain ⟨h1, h2, h3⟩ : ¬module = "Nutrição clínica" ∧ ¬module = "Nutrição esportiva" ∧
      ¬module = "Materno infantil" := by simpa [knownModules] using hm
  have hMA : moduleAssessment module = [] := by simp [moduleAssessment, h1, h2, h3]
  have hMT : moduleAttention module extra = [] := by simp [moduleAttention, h1, h2, h3]
  have hMN : moduleNextSteps module extra = [] := by simp [moduleNextSteps, h1, h2, h3]
  have hMM : moduleMissing module extra = [] := by simp [moduleMissing, h1, h2, h3]
  have hMF : moduleFollowUp module = [] := by simp [moduleFollowUp, h1, h2, h3]
  refine ⟨⟨hMA, hMT, hMN, hMM, hMF⟩, ?_, ?_, ?_⟩
  · intro hc1 hc2 hc3
    have hca : crossAssessment (pyStrip complaint) (pyStrip goals) (pyStrip notes) = [] := by
      simp [crossAssessment, hc1, hc2, hc3]
    have hct : crossAttention (pyStrip complaint) (pyStrip goals) (pyStrip notes) = [] := by
      simp [crossAttention, hc1, hc2, hc3]
    have hcn : crossNextSteps (pyStrip complaint) (pyStrip goals) (pyStrip notes) = [] := by
      simp [crossNextSteps, hc1, hc2, hc3]
    refine ⟨?_, ?_, ?_⟩
    · show joinBullets (withDefault (crossAssessment (pyStrip complaint) (pyStrip goals)
        (pyStrip notes) ++ moduleAssessment module) fbAssessment) = joinBullets [fbAssessment]
      rw [hca, hMA]
      rfl
    · show joinBullets (withDefault (crossAttention (pyStrip complaint) (pyStrip goals)
        (pyStrip notes) ++ moduleAttention module extra) fbAttention) = joinBullets [fbAttention]
      rw [hct, hMT]
      rfl
    · show joinBullets (withDefault (crossNextSteps (pyStrip complaint) (pyStrip goals)
        (pyStrip notes) ++ moduleNextSteps module extra) fbNextSteps) = joinBullets [fbNextSteps]
      rw [hcn, hMN]
      rfl
  · show joinBullets (withDefault (moduleMissing module extra) fbMissing) =
      joinBullets [fbMissing]
    rw [hMM]
    rfl
  · show joinBullets (withDefault (moduleFollowUp module) fbFollowUp) = joinBullets [fbFollowUp]
    rw [hMF]
    rfl

/-- Witness for the amended C5 at the unknown module "Outro" with all
text fields blank, discharging every hypothesis by computation. -/
theorem unknown_module_fallback_witness :
    ("Outro" ∉ knownModules) ∧
    ((generate_report_simulated "Outro" "" "" "" "" (fun _ => none)).assessment =
        joinBullets [fbAssessment] ∧
     (generate_report_simulated "Outro" "" "" "" "" (fun _ => none)).attention_points =
        joinBullets [fbAttention] ∧
     (generate_report_simulated "Outro" "" "" "" "" (fun _ => none)).next_steps =
        joinBullets [fbNextSteps]) ∧
    (generate_report_simulated "Outro" "" "" "" "" (fun _ => none)).follow_up =
      joinBullets [fbFollowUp] :=
  ⟨by decide,
   (unknown_module_fallback "Outro" "" "" "" "" (fun _ => none) (by decide)).2.1
     (by decide) (by decide) (by decide),
   (unknown_module_fallback "Outro" "" "" "" "" (fun _ => none) (by decide)).2.2.2⟩

/-- C7: the extra mapping is permissive.  For every module, two extra
mappings that agree on the module's recognized keys after blank
normalisation (a key that is absent, mapped to the empty string, or
mapped to a whitespace-only string counts as "not provided", and keys
outside the recognized set are ignored) yield identical reports, all
other arguments held equal. -/
theorem extra_mapping_permissive (module subtype complaint goals notes : String)
    (e1 e2 : String → Option String)
    (h : ∀ k ∈ recognizedKeys module, getExtra e1 k = getExtra e2 k) :
    generate_report_simulated module subtype complaint goals notes e1 =
      generate_report_simulated module subtype complaint goals notes e2 := by
  have hA := moduleAttention_congr module e1 e2 h
  have hN := moduleNextSteps_congr module e1 e2 h
  have hM := moduleMissing_congr module e1 e2 h
  simp only [generate_report_simulated]
  rw [hA, hN, hM]

/-- Witness for C7: the empty mapping versus a mapping holding an ignored
key and a whitespace-only recognized key produce the same report. -/
theorem extra_mapping_permissive_witness :
    (∀ k ∈ recognizedKeys "Nutrição clínica",
      getExtra (fun _ => none) k =
        getExtra (fun k' => if k' = "ignored_key" then some "valor" else
          if k' = "labs" then some "   " else none) k) ∧
    generate_report_simulated "Nutrição clínica" "Padrão" "dor" "saúde" "" (fun _ => none) =
      generate_report_simulated "Nutrição clínica" "Padrão" "dor" "saúde" ""
        (fun k' => if k' = "ignored_key" then some "valor" else
          if k' = "labs" then some "   " else none) :=
  ⟨by decide,
   extra_mapping_permissive "Nutrição clínica" "Padrão" "dor" "saúde" "" _ _ (by decide)⟩
